import Mathlib

/-!
Verification of the hyper-proxy-lite forward proxy.

The development shallowly embeds the two source files:
* `src/addon/filter.rs` — `FilterMode`, `FilterRules` (`is_allowed`,
  `read_config_file`) and `blocked_response`;
* `src/main.rs` — the request dispatcher `proxy`, the HTTP forwarder
  `handle_http`, the CONNECT handler `handle_connect` and the byte
  `tunnel` task.

External collaborators (the hyper HTTP machinery, the outbound HTTP
client, the TOML deserializer, the filesystem, TCP sockets) are modelled
as explicit oracles / effect traces, so every handler becomes a pure
function from a request and its oracles to an `Except`-result carrying
the response together with the list of side effects it performs.
-/

namespace HyperProxyLite

/-! ### Filter data model (`src/addon/filter.rs`) -/

/-- `FilterMode` from filter.rs: `Blacklist` (deny-list) or `Whitelist`
(allow-list). -/
inductive FilterMode where
  | Blacklist
  | Whitelist
deriving DecidableEq, Repr

/-- `FilterRules` from filter.rs: a mode together with a set of domain
strings.  The Rust `HashSet<String>` is modelled by a list with
membership semantics. -/
structure FilterRules where
  mode : FilterMode
  domains : List String
deriving DecidableEq, Repr

/-- `FilterRules::new_blacklist`. -/
def FilterRules.new_blacklist (domains : List String) : FilterRules :=
  { mode := FilterMode.Blacklist, domains := domains }

/-- `FilterRules::new_whitelist`. -/
def FilterRules.new_whitelist (domains : List String) : FilterRules :=
  { mode := FilterMode.Whitelist, domains := domains }

/-- `FilterRules::is_allowed`: Rust computes
`host.split(':').next().unwrap_or(host)` — the first segment of the
split, i.e. the part of `host` before its first `':'` (the whole string
when there is none) — and checks it against the domain set according to
the mode.  `split(':').next()` is modelled by the head of
`List.splitOn`, with `unwrap_or(host)` as the (unreachable) default. -/
def FilterRules.is_allowed (self : FilterRules) (host : String) : Bool :=
  let domain : String := ⟨(host.data.splitOn ':').headD host.data⟩
  match self.mode with
  | FilterMode.Blacklist => !(self.domains.contains domain)
  | FilterMode.Whitelist => self.domains.contains domain

/-- Result of trying to read a file: the path does not exist, it exists
but reading fails, or it has this content.  Models the filesystem seen
by `FilterRules::read_config_file`. -/
inductive FileRead where
  | absent
  | unreadable (e : String)
  | content (s : String)
deriving DecidableEq, Repr

/-- `FilterRules::read_config_file`: checks existence, reads the file,
then deserializes with `toml::from_str`.  The filesystem `fs` and the
TOML deserializer `toml_from_str` (an external crate, excluded by the
spec as a pure deserialization step) are passed as oracles. -/
def read_config_file (fs : String → FileRead)
    (toml_from_str : String → Except String FilterRules)
    (path : String) : Except String FilterRules :=
  match fs path with
  | FileRead.absent =>
      Except.error ("Filter config file does not exist: " ++ path)
  | FileRead.unreadable e =>
      Except.error ("Failed to read filter config file " ++ path ++ ": " ++ e)
  | FileRead.content s =>
      match toml_from_str s with
      | Except.error e => Except.error ("Failed to parse config file: " ++ e)
      | Except.ok config => Except.ok config

/-! ### HTTP responses and the hyper response builder -/

/-- An HTTP response: status code, header list, body bytes (as a
string). -/
structure Response where
  status : Nat
  headers : List (String × String)
  body : String
deriving DecidableEq, Repr

/-- A character valid in an HTTP header name (RFC 7230 `tchar`), as
validated by the `http` crate when `Response::builder().header(..)`
parses the name. -/
def isTokenChar (c : Char) : Bool :=
  let n := c.toNat
  (48 ≤ n && n ≤ 57) || (65 ≤ n && n ≤ 90) || (97 ≤ n && n ≤ 122) ||
  n == 33 || n == 35 || n == 36 || n == 37 || n == 38 || n == 39 ||
  n == 42 || n == 43 || n == 45 || n == 46 || n == 94 || n == 95 ||
  n == 96 || n == 124 || n == 126

/-- Valid header name: nonempty, all token characters. -/
def validHeaderName (s : String) : Bool :=
  !s.isEmpty && s.data.all isTokenChar

/-- A byte valid inside an HTTP header value (no control characters
except TAB, no DEL), as validated by `HeaderValue::from_str`. -/
def isValidValueChar (c : Char) : Bool :=
  let n := c.toNat
  (32 ≤ n && n != 127) || n == 9

/-- Valid header value string. -/
def validHeaderValue (s : String) : Bool :=
  s.data.all isValidValueChar

/-- Valid numeric HTTP status code, as accepted by
`StatusCode::try_from` (100..999). -/
def validStatus (n : Nat) : Bool :=
  100 ≤ n && n < 1000

/-- The `http` crate's `response::Builder`: accumulated status and
headers, or the first error hit by a builder step (later steps are
no-ops once an error is recorded). -/
structure Builder where
  statusB : Nat
  headersB : List (String × String)
  errB : Option String
deriving Repr

/-- `Response::builder()`: status defaults to 200, no headers, no
error. -/
def Builder.new : Builder :=
  { statusB := 200, headersB := [], errB := none }

/-- `Builder::status`. -/
def Builder.status (b : Builder) (s : Nat) : Builder :=
  match b.errB with
  | some _ => b
  | none =>
      if validStatus s then { b with statusB := s }
      else { b with errB := some ("invalid status code") }

/-- `Builder::header`: validates name and value, appends. -/
def Builder.header (b : Builder) (name value : String) : Builder :=
  match b.errB with
  | some _ => b
  | none =>
      if validHeaderName name && validHeaderValue value then
        { b with headersB := b.headersB ++ [(name, value)] }
      else { b with errB := some ("invalid header") }

/-- `Builder::body`: produce the response, or surface the recorded
error. -/
def Builder.body (b : Builder) (bd : String) : Except String Response :=
  match b.errB with
  | some e => Except.error e
  | none => Except.ok { status := b.statusB, headers := b.headersB, body := bd }

/-- `blocked_response` from filter.rs: a 403 response with
`Content-Type: text/plain` and body
`Access to {host} is blocked by proxy filter rules`; a builder error is
wrapped in `"Failed to build blocked response: "`. -/
def blocked_response (host : String) : Except String Response :=
  let body := "Access to " ++ host ++ " is blocked by proxy filter rules"
  match (((Builder.new).status 403).header ("Content-Type") ("text/plain")).body body with
  | Except.error e => Except.error ("Failed to build blocked response: " ++ e)
  | Except.ok r => Except.ok r

/-! ### Requests (`src/main.rs`) -/

/-- The parts of a `hyper::Uri` the proxy reads: its authority
(`host[:port]`, rendered to a string) and its path-and-query. -/
structure Uri where
  authority : Option String
  path_and_query : Option String
deriving DecidableEq, Repr

/-- An inbound `Request<Incoming>`: method, URI, headers and body.
Header values are raw byte sequences (hyper's `HeaderValue` is bytes,
not text), so that `HeaderValue::to_str` can fail. -/
structure Request where
  method : String
  uri : Uri
  headers : List (String × List Nat)
  body : String
deriving DecidableEq, Repr

/-- `HeaderMap::get(name)`: the first header with this name.  Hyper
normalizes header names to lowercase when parsing, so `get("host")` is
an exact match on the normalized name; the model stores names already
normalized. -/
def headers_get (hs : List (String × List Nat)) (name : String) :
    Option (List Nat) :=
  (hs.find? (fun p => p.fst == name)).map Prod.snd

/-- `HeaderValue::to_str`: succeeds iff every byte is visible ASCII
(32..126) or TAB, yielding the corresponding string. -/
def header_to_str (v : List Nat) : Option String :=
  if v.all (fun b => (32 ≤ b && b < 127) || b == 9) then
    some ⟨v.map Char.ofNat⟩
  else none

/-- The host-extraction step at the top of `proxy` in main.rs:
`req.uri().authority().map(to_string)` or else the `host` header
(when convertible to a string), or else the empty string. -/
def extract_host (req : Request) : String :=
  ((req.uri.authority).orElse
    (fun _ => (headers_get req.headers ("host")).bind header_to_str)).getD ("")

/-! ### Effects and oracles for the IO the handlers perform -/

/-- The outbound request `handle_http` hands to the hyper client: the
inbound request with its URI replaced by the absolute-form string. -/
structure OutboundRequest where
  method : String
  uri_string : String
  headers : List (String × List Nat)
  body : String
deriving DecidableEq, Repr

/-- Observable side effects of handling one request: forwarding through
the HTTP client, opening a TCP connection to an address, running the
bidirectional relay, or printing an error line. -/
inductive Effect where
  | forward (r : OutboundRequest)
  | tcpConnect (addr : String)
  | relay (addr : String)
  | logError (msg : String)
deriving DecidableEq, Repr

/-- The outbound HTTP client (`Client::request`): maps an outbound
request to a response or a transport error. -/
def ClientOracle : Type :=
  OutboundRequest → Except String Response

/-- Outcomes of the IO steps of a spawned tunnel task: the connection
upgrade (`hyper::upgrade::on`), the TCP connect to the target address,
and the `copy_bidirectional` relay. -/
structure TunnelOracle where
  upgrade : Except String Unit
  connect : String → Except String Unit
  relay : String → Except String Unit

/-- The spawned task of `handle_connect` together with `tunnel` from
main.rs, as an effect trace: upgrade failure logs `Upgrade error: {e}`;
otherwise `tunnel` connects to `addr` (failure logged as
`Tunnel error: {e}`) and runs the relay (failure likewise logged). -/
def tunnel_effects (ora : TunnelOracle) (addr : String) : List Effect :=
  match ora.upgrade with
  | Except.error e => [Effect.logError ("Upgrade error: " ++ e)]
  | Except.ok _ =>
      Effect.tcpConnect addr ::
        match ora.connect addr with
        | Except.error e => [Effect.logError ("Tunnel error: " ++ e)]
        | Except.ok _ =>
            Effect.relay addr ::
              match ora.relay addr with
              | Except.error e => [Effect.logError ("Tunnel error: " ++ e)]
              | Except.ok _ => []

/-! ### A mini model of `http::Uri` parsing for the rewritten URI -/

/-- Characters `http::Uri` accepts inside an authority. -/
def authorityChar (c : Char) : Bool :=
  c.isAlphanum || c == '.' || c == '-' || c == ':' || c == '_' ||
  c == '[' || c == ']' || c == '@' || c == '%' || c == '~'

/-- Characters acceptable in a path-and-query: visible ASCII. -/
def pathChar (c : Char) : Bool :=
  33 ≤ c.toNat && c.toNat < 127

/-- `uri_string.parse::<Uri>()` restricted to the shape `handle_http`
builds (`http://{authority}{path}`): strips the scheme, splits the rest
at the first `/` (or `?`/`#`), and validates both parts.  An absent
path parses to `/` as `http::Uri` does. -/
def parse_absolute_uri (s : String) : Option Uri :=
  if s.data.take 7 = ("http://").data then
    let rest := s.data.drop 7
    let auth := rest.takeWhile (fun c => c != '/' && c != '?' && c != '#')
    let path := rest.dropWhile (fun c => c != '/' && c != '?' && c != '#')
    if !auth.isEmpty && auth.all authorityChar && path.all pathChar then
      some { authority := some ⟨auth⟩,
             path_and_query := some (if path.isEmpty then "/" else ⟨path⟩) }
    else none
  else none

/-! ### The handlers (`src/main.rs`) -/

/-- `handle_http`: requires an authority, rewrites the target URI to
`http://{authority}{path_and_query or /}`, re-parses it, and forwards
the request — headers and body untouched — through the client,
returning the client's response unmodified (`body.boxed()` is the
identity here). -/
def handle_http (client : ClientOracle) (req : Request) :
    Except String (Response × List Effect) :=
  match req.uri.authority with
  | none => Except.error ("Missing authority in URI")
  | some auth =>
      let path := (req.uri.path_and_query).getD ("/")
      let uri_string := "http://" ++ auth ++ path
      match parse_absolute_uri uri_string with
      | none => Except.error ("Failed to parse URI: " ++ uri_string)
      | some _ =>
          let out : OutboundRequest :=
            { method := req.method, uri_string := uri_string,
              headers := req.headers, body := req.body }
          match client out with
          | Except.error e => Except.error ("HTTP request error: " ++ e)
          | Except.ok resp => Except.ok (resp, [Effect.forward out])

/-- `handle_connect`: requires an authority (the tunnel address),
spawns the upgrade-and-tunnel task, and immediately returns a 200
response with an empty body built by `Response::builder().status(200)`.
The spawned task's effects are collected alongside; the response value
never depends on them. -/
def handle_connect (ora : TunnelOracle) (req : Request) :
    Except String (Response × List Effect) :=
  match req.uri.authority with
  | none => Except.error ("CONNECT request missing authority in URI")
  | some a =>
      let addr := a
      let spawned := tunnel_effects ora addr
      match ((Builder.new).status 200).body ("") with
      | Except.error e => Except.error ("Failed to build response: " ++ e)
      | Except.ok r => Except.ok (r, spawned)

/-- `proxy`: extract the host, consult the filter (returning the
blocked response with no further processing when disallowed), then
route CONNECT requests to `handle_connect` and the rest to
`handle_http`. -/
def proxy (client : ClientOracle) (ora : TunnelOracle) (req : Request)
    (rules : FilterRules) : Except String (Response × List Effect) :=
  let host := extract_host req
  if !(rules.is_allowed host) then
    (blocked_response host).map (fun r => (r, []))
  else if req.method == "CONNECT" then
    handle_connect ora req
  else
    handle_http client req

/-! ### Spec-side definitions -/

/-- The spec's domain of a host: the substring of `host` strictly
before its first `':'` (all of `host` when it has no `':'`). -/
def spec_domain (host : String) : String :=
  ⟨host.data.takeWhile (fun c => c != ':')⟩

/-! ### Helper lemmas -/

theorem headD_splitOnP (p : Char → Bool) (l : List Char) (d : List Char) :
    (l.splitOnP p).headD d = l.takeWhile (fun a => !p a) := by
  induction l generalizing d with
  | nil => simp
  | cons x xs ih =>
      rw [List.splitOnP_cons]
      by_cases h : p x
      · simp [h]
      · have hne := List.splitOnP_ne_nil p xs
        obtain ⟨y, ys, hy⟩ := List.exists_cons_of_ne_nil hne
        have hy2 : y = List.takeWhile (fun a => !p a) xs := by
          have hd := ih d
          rwa [hy, List.headD_cons] at hd
        simp [h, hy, hy2]

theorem headD_splitOn_colon (l : List Char) (d : List Char) :
    (l.splitOn ':').headD d = l.takeWhile (fun c => c != ':') := by
  simp only [List.splitOn]
  rw [headD_splitOnP]
  rfl

theorem is_allowed_eq (r : FilterRules) (h : String) :
    r.is_allowed h =
      match r.mode with
      | FilterMode.Blacklist => !(r.domains.contains (spec_domain h))
      | FilterMode.Whitelist => r.domains.contains (spec_domain h) := by
  unfold FilterRules.is_allowed spec_domain
  rw [headD_splitOn_colon]

theorem blocked_response_eval (host : String) :
    blocked_response host =
      Except.ok { status := 403, headers := [("Content-Type", "text/plain")],
                  body := "Access to " ++ host ++ " is blocked by proxy filter rules" } :=
  rfl

/-! ### Claim theorems -/

/-- C1: `is_allowed(h)` takes the substring of `h` before its first
`':'` as the domain; in Deny (`Blacklist`) mode it returns `true` iff
that domain is absent from the set, and in Allow (`Whitelist`) mode iff
it is present. -/
theorem C1_is_allowed_domain_check (r : FilterRules) (h : String) :
    r.is_allowed h =
      match r.mode with
      | FilterMode.Blacklist => !(decide (spec_domain h ∈ r.domains))
      | FilterMode.Whitelist => decide (spec_domain h ∈ r.domains) := by
  rw [is_allowed_eq]
  cases r.mode <;> simp [List.contains, List.elem_eq_mem]

/-- C9: `blocked_response` returns `Ok` for every host string — the
builder-error branch is unreachable, and the response carries the
documented status, header and body. -/
theorem C9_blocked_response_total (host : String) :
    ∃ r : Response, blocked_response host = Except.ok r ∧
      r.status = 403 ∧ r.headers = [("Content-Type", "text/plain")] ∧
      r.body = "Access to " ++ host ++ " is blocked by proxy filter rules" :=
  ⟨_, blocked_response_eval host, rfl, rfl, rfl⟩

/-- C2: when the extracted host `h` is rejected by the filter, the
dispatcher replies with status 403, header `Content-Type: text/plain`
and body `Access to {h} is blocked by proxy filter rules`, where `h` is
the full extracted host including any `:port` suffix. -/
theorem C2_blocked_request_403 (client : ClientOracle) (ora : TunnelOracle)
    (rules : FilterRules) (req : Request) (h : String)
    (hhost : extract_host req = h)
    (hblocked : rules.is_allowed h = false) :
    proxy client ora req rules =
      Except.ok ({ status := 403,
                   headers := [("Content-Type", "text/plain")],
                   body := "Access to " ++ h ++ " is blocked by proxy filter rules" },
                 []) := by
  simp [proxy, hhost, hblocked, blocked_response_eval, Except.map]

/-- Witness for C2: Scenario A — deny-mode filter on
`blocked.example`, request to `blocked.example:443`. -/
theorem C2_blocked_request_403_witness :
    proxy (fun _ => Except.error ("unused"))
        ⟨Except.ok (), fun _ => Except.ok (), fun _ => Except.ok ()⟩
        { method := "CONNECT",
          uri := { authority := some ("blocked.example:443"), path_and_query := none },
          headers := [], body := "" }
        (FilterRules.new_blacklist [("blocked.example")]) =
      Except.ok ({ status := 403,
                   headers := [("Content-Type", "text/plain")],
                   body := "Access to blocked.example:443 is blocked by proxy filter rules" },
                 []) :=
  C2_blocked_request_403 _ _ _ _ ("blocked.example:443") rfl rfl

/-- C3: a blocked request is short-circuited: the dispatcher's result
carries the blocked response and an empty effect list (nothing is
forwarded through the client, no tunnel task runs, no TCP connect
happens), and the result does not depend on the client or tunnel
oracles at all. -/
theorem C3_blocked_no_processing (client client2 : ClientOracle)
    (ora ora2 : TunnelOracle) (rules : FilterRules) (req : Request)
    (hblocked : rules.is_allowed (extract_host req) = false) :
    proxy client ora req rules =
      Except.ok ({ status := 403,
                   headers := [("Content-Type", "text/plain")],
                   body := "Access to " ++ extract_host req ++
                     " is blocked by proxy filter rules" },
                 []) ∧
    proxy client ora req rules = proxy client2 ora2 req rules := by
  constructor
  · simp [proxy, hblocked, blocked_response_eval, Except.map]
  · simp [proxy, hblocked]

/-- Witness for C3: Scenario C — allow-mode filter on `ok.example`,
CONNECT to `other.example:443`, two different oracle pairs. -/
theorem C3_blocked_no_processing_witness :
    proxy (fun _ => Except.error ("a"))
        ⟨Except.ok (), fun _ => Except.ok (), fun _ => Except.ok ()⟩
        { method := "CONNECT",
          uri := { authority := some ("other.example:443"), path_and_query := none },
          headers := [], body := "" }
        (FilterRules.new_whitelist [("ok.example")]) =
      Except.ok ({ status := 403,
                   headers := [("Content-Type", "text/plain")],
                   body := "Access to other.example:443 is blocked by proxy filter rules" },
                 []) ∧
    proxy (fun _ => Except.error ("a"))
        ⟨Except.ok (), fun _ => Except.ok (), fun _ => Except.ok ()⟩
        { method := "CONNECT",
          uri := { authority := some ("other.example:443"), path_and_query := none },
          headers := [], body := "" }
        (FilterRules.new_whitelist [("ok.example")]) =
      proxy (fun _ => Except.ok { status := 500, headers := [], body := "" })
        ⟨Except.error ("upgrade failed"), fun _ => Except.error ("refused"),
         fun _ => Except.error ("reset")⟩
        { method := "CONNECT",
          uri := { authority := some ("other.example:443"), path_and_query := none },
          headers := [], body := "" }
        (FilterRules.new_whitelist [("ok.example")]) :=
  C3_blocked_no_processing _ _ _ _ _ _ rfl

/-- C4: the host handed to the filter is the URI authority when
present; otherwise the `Host` header when present and convertible to a
string; otherwise the empty string. -/
theorem C4_host_extraction (req : Request) :
    (∀ a, req.uri.authority = some a → extract_host req = a) ∧
    (∀ v s, req.uri.authority = none →
      headers_get req.headers ("host") = some v → header_to_str v = some s →
      extract_host req = s) ∧
    (req.uri.authority = none →
      (headers_get req.headers ("host")).bind header_to_str = none →
      extract_host req = "") := by
  refine ⟨?_, ?_, ?_⟩ <;> intros <;>
    simp_all [extract_host, Option.orElse, Option.bind]

/-- Witness for C4: a request whose URI carries an authority. -/
theorem C4_host_extraction_witness :
    extract_host
        { method := "GET",
          uri := { authority := some ("a.example:80"), path_and_query := none },
          headers := [], body := "" } = "a.example:80" :=
  (C4_host_extraction _).1 _ rfl

theorem connect_ack_eval :
    ((Builder.new).status 200).body ("") =
      Except.ok { status := 200, headers := [], body := "" } :=
  rfl

/-- C5: an allowed non-CONNECT request with authority `A` is forwarded
with its target URI replaced by `http://A` followed by the URI's
path-and-query (or `/` when absent); headers and body pass through
unmodified, and the origin's response is returned unmodified. -/
theorem C5_http_forward (client : ClientOracle) (ora : TunnelOracle)
    (rules : FilterRules) (req : Request) (a : String) (resp : Response)
    (hm : (req.method == "CONNECT") = false)
    (hallow : rules.is_allowed (extract_host req) = true)
    (hauth : req.uri.authority = some a)
    (hparse : (parse_absolute_uri
        ("http://" ++ a ++ (req.uri.path_and_query).getD ("/"))).isSome = true)
    (hclient : client
        { method := req.method,
          uri_string := "http://" ++ a ++ (req.uri.path_and_query).getD ("/"),
          headers := req.headers, body := req.body } = Except.ok resp) :
    proxy client ora req rules =
      Except.ok (resp,
        [Effect.forward
          { method := req.method,
            uri_string := "http://" ++ a ++ (req.uri.path_and_query).getD ("/"),
            headers := req.headers, body := req.body }]) := by
  obtain ⟨u, hu⟩ := Option.isSome_iff_exists.mp hparse
  simp [proxy, hallow, hm, handle_http, hauth, hu, hclient]

/-- Witness for C5: Scenario E — GET to `http://origin.example/path?q=1`
through a filter allowing `origin.example`. -/
theorem C5_http_forward_witness :
    proxy
        (fun o =>
          if o.uri_string == "http://origin.example/path?q=1" then
            Except.ok { status := 200, headers := [], body := "hi" }
          else Except.error ("wrong"))
        ⟨Except.ok (), fun _ => Except.ok (), fun _ => Except.ok ()⟩
        { method := "GET",
          uri := { authority := some ("origin.example"),
                   path_and_query := some ("/path?q=1") },
          headers := [], body := "" }
        (FilterRules.new_whitelist [("origin.example")]) =
      Except.ok ({ status := 200, headers := [], body := "hi" },
        [Effect.forward
          { method := "GET", uri_string := "http://origin.example/path?q=1",
            headers := [], body := "" }]) :=
  C5_http_forward _ _ _ _ ("origin.example") _ rfl rfl rfl (by decide) rfl

/-- C6: an allowed CONNECT request with an authority immediately gets a
200 response with empty body, whatever the tunnel oracle's outcomes:
the response value is fixed and the upgrade / origin-connect / relay
results appear only in the spawned task's effect trace. -/
theorem C6_connect_ack (client : ClientOracle) (ora : TunnelOracle)
    (rules : FilterRules) (req : Request) (a : String)
    (hm : req.method = "CONNECT")
    (hallow : rules.is_allowed (extract_host req) = true)
    (hauth : req.uri.authority = some a) :
    proxy client ora req rules =
      Except.ok ({ status := 200, headers := [], body := "" },
                 tunnel_effects ora a) := by
  simp [proxy, hallow, hm, handle_connect, hauth, connect_ack_eval]

/-- Witness for C6: CONNECT to `ok.example:443` under an allow-mode
filter containing `ok.example`. -/
theorem C6_connect_ack_witness :
    proxy (fun _ => Except.error ("unused"))
        ⟨Except.ok (), fun _ => Except.ok (), fun _ => Except.ok ()⟩
        { method := "CONNECT",
          uri := { authority := some ("ok.example:443"), path_and_query := none },
          headers := [], body := "" }
        (FilterRules.new_whitelist [("ok.example")]) =
      Except.ok ({ status := 200, headers := [], body := "" },
        [Effect.tcpConnect ("ok.example:443"), Effect.relay ("ok.example:443")]) :=
  C6_connect_ack _ _ _ _ ("ok.example:443") rfl rfl rfl

/-- C7: a request with neither a URI authority nor a usable `Host`
header gets the empty string as host; when the filter does not block
the empty string, handling ends in a request-level missing-authority
error — independent of the client and tunnel oracles, so nothing is
forwarded to any origin. -/
theorem C7_no_authority_error (client client2 : ClientOracle)
    (ora ora2 : TunnelOracle) (rules : FilterRules) (req : Request)
    (hauth : req.uri.authority = none)
    (hhost : (headers_get req.headers ("host")).bind header_to_str = none)
    (hallow : rules.is_allowed ("") = true) :
    extract_host req = "" ∧
    proxy client ora req rules =
      Except.error (if req.method == "CONNECT"
        then ("CONNECT request missing authority in URI")
        else ("Missing authority in URI")) ∧
    proxy client ora req rules = proxy client2 ora2 req rules := by
  have hext : extract_host req = "" := by
    simp [extract_host, hauth, hhost, Option.orElse]
  refine ⟨hext, ?_, ?_⟩
  · by_cases hm : (req.method == "CONNECT") = true <;>
      simp [proxy, hext, hallow, hm, handle_connect, handle_http, hauth]
  · by_cases hm : (req.method == "CONNECT") = true <;>
      simp [proxy, hext, hallow, hm, handle_connect, handle_http, hauth]

/-- Witness for C7: a GET with no authority and a `Host` header whose
value is a non-ASCII byte, under an empty deny-list. -/
theorem C7_no_authority_error_witness :
    extract_host
        { method := "GET",
          uri := { authority := none, path_and_query := none },
          headers := [(("host"), [1])], body := "" } = "" ∧
    proxy (fun _ => Except.error ("unused"))
        ⟨Except.ok (), fun _ => Except.ok (), fun _ => Except.ok ()⟩
        { method := "GET",
          uri := { authority := none, path_and_query := none },
          headers := [(("host"), [1])], body := "" }
        (FilterRules.new_blacklist []) =
      Except.error ("Missing authority in URI") ∧
    proxy (fun _ => Except.error ("unused"))
        ⟨Except.ok (), fun _ => Except.ok (), fun _ => Except.ok ()⟩
        { method := "GET",
          uri := { authority := none, path_and_query := none },
          headers := [(("host"), [1])], body := "" }
        (FilterRules.new_blacklist []) =
      proxy (fun _ => Except.ok { status := 200, headers := [], body := "" })
        ⟨Except.error ("u"), fun _ => Except.error ("c"), fun _ => Except.error ("r")⟩
        { method := "GET",
          uri := { authority := none, path_and_query := none },
          headers := [(("host"), [1])], body := "" }
        (FilterRules.new_blacklist []) :=
  C7_no_authority_error _ _ _ _ _ _ rfl rfl rfl

/-- C8: `read_config_file` errors when the file is absent, unreadable,
or fails TOML deserialization, and otherwise returns exactly the
deserialized rules — whose mode is necessarily one of the two
recognized values. -/
theorem C8_read_config_file (fs : String → FileRead)
    (toml_from_str : String → Except String FilterRules) (p : String) :
    (fs p = FileRead.absent →
      read_config_file fs toml_from_str p =
        Except.error ("Filter config file does not exist: " ++ p)) ∧
    (∀ e, fs p = FileRead.unreadable e →
      read_config_file fs toml_from_str p =
        Except.error ("Failed to read filter config file " ++ p ++ ": " ++ e)) ∧
    (∀ s e, fs p = FileRead.content s → toml_from_str s = Except.error e →
      read_config_file fs toml_from_str p =
        Except.error ("Failed to parse config file: " ++ e)) ∧
    (∀ s r, fs p = FileRead.content s → toml_from_str s = Except.ok r →
      read_config_file fs toml_from_str p = Except.ok r ∧
        (r.mode = FilterMode.Blacklist ∨ r.mode = FilterMode.Whitelist)) := by
  refine ⟨?_, ?_, ?_, ?_⟩
  · intro h1
    simp [read_config_file, h1]
  · intro e h1
    simp [read_config_file, h1]
  · intro s e h1 h2
    simp [read_config_file, h1, h2]
  · intro s r h1 h2
    refine ⟨by simp [read_config_file, h1, h2], ?_⟩
    cases hm : r.mode
    · exact Or.inl rfl
    · exact Or.inr rfl

/-- Witness for C8: an absent file yields the documented error. -/
theorem C8_read_config_file_witness :
    read_config_file (fun _ => FileRead.absent)
        (fun _ => Except.error ("no")) ("filter.toml") =
      Except.error ("Filter config file does not exist: " ++ "filter.toml") :=
  (C8_read_config_file _ _ _).1 rfl

theorem tcpConnect_addr_eq (ora : TunnelOracle) (addr addr' : String) :
    Effect.tcpConnect addr' ∈ tunnel_effects ora addr → addr' = addr := by
  unfold tunnel_effects
  cases ora.upgrade with
  | error e => simp
  | ok u =>
      cases h1 : ora.connect addr with
      | error e => simp
      | ok u2 =>
          cases h2 : ora.relay addr with
          | error e => simp
          | ok u3 => simp

/-- C10: for a CONNECT request with an authority, the host the filter
checked is exactly the authority string, and every TCP connect the
handling performs targets exactly that string — the filtered identity
and the connected destination cannot diverge. -/
theorem C10_connect_addr_matches_filtered_host (client : ClientOracle)
    (ora : TunnelOracle) (rules : FilterRules) (req : Request) (a : String)
    (hm : req.method = "CONNECT")
    (hauth : req.uri.authority = some a) :
    extract_host req = a ∧
    (∀ resp effs, proxy client ora req rules = Except.ok (resp, effs) →
      ∀ addr, Effect.tcpConnect addr ∈ effs → addr = extract_host req) := by
  have hext : extract_host req = a := by
    simp [extract_host, hauth, Option.orElse]
  refine ⟨hext, ?_⟩
  intro resp effs hp addr hmem
  rw [hext]
  by_cases hallow : rules.is_allowed (extract_host req) = true
  · simp [proxy, hallow, hm, handle_connect, hauth, connect_ack_eval] at hp
    obtain ⟨h1, h2⟩ := hp
    rw [← h2] at hmem
    exact tcpConnect_addr_eq ora a addr hmem
  · have hfalse : rules.is_allowed (extract_host req) = false := by
      cases hb : rules.is_allowed (extract_host req)
      · rfl
      · exact absurd hb hallow
    simp [proxy, hfalse, blocked_response_eval, Except.map] at hp
    obtain ⟨h1, h2⟩ := hp
    rw [h2] at hmem
    simp at hmem

/-- Witness for C10: allowed CONNECT to `ok.example:443`; the address
of the TCP connect effect equals the filtered host. -/
theorem C10_connect_addr_matches_filtered_host_witness :
    ("ok.example:443" : String) =
      extract_host
        { method := "CONNECT",
          uri := { authority := some ("ok.example:443"), path_and_query := none },
          headers := [], body := "" } :=
  (C10_connect_addr_matches_filtered_host (fun _ => Except.error ("u"))
      ⟨Except.ok (), fun _ => Except.ok (), fun _ => Except.ok ()⟩
      (FilterRules.new_whitelist [("ok.example")])
      { method := "CONNECT",
        uri := { authority := some ("ok.example:443"), path_and_query := none },
        headers := [], body := "" }
      ("ok.example:443") rfl rfl).2
    { status := 200, headers := [], body := "" }
    [Effect.tcpConnect ("ok.example:443"), Effect.relay ("ok.example:443")]
    rfl ("ok.example:443") (List.Mem.head _)

end HyperProxyLite
